import Mathlib

/-!
Shallow embedding of the Smart Glasses LED controller firmware
(src/firmware/main.c) for checking the natural-language specification.

Conventions of the embedding:
* C unsigned integers are modelled as Nat; where uint32 wrap-around
  subtraction matters (tick arithmetic) we use an explicit modular
  subtraction u32_sub.
* IEEE single-precision values are modelled as exact rationals; a value
  that the C program computes as NaN is modelled as Option.none.  The
  only NaN the modelled code can produce is 0.0f/0.0f in the breathing
  fraction, so finite rounding error is abstracted away (none of the
  checked properties depends on it).
* Calls to the PWM driver (pwm1_setduty) are recorded as a list of the
  logical 0-100 duty arguments, in call order; the percent-to-raw remap
  itself (pwm1_setduty's body) is modelled separately as pwm1_raw.
* ESP_LOGx calls and the 30-second progress log are pure logging and are
  omitted.  vTaskDelay calls are recorded as LedAction.delay.
-/

/-- The mutable globals of main.c that the command handler, the LED task
and the sleep poll share: brightness, start_hz, end_hz, inhale_time,
exhale_time, hold_in_end, hold_out_end, session_minutes,
session_start_tick, session_active, session_ended, override_active,
override_duty. -/
structure DeviceState where
  brightness : Nat
  start_hz : Nat
  end_hz : Nat
  inhale_time : Nat
  exhale_time : Nat
  hold_in_end : Nat
  hold_out_end : Nat
  session_minutes : Nat
  session_start_tick : Nat
  session_active : Bool
  session_ended : Bool
  override_active : Bool
  override_duty : Nat
deriving DecidableEq

/-- The state of the globals right after app_main's initialisation
(static initialisers of main.c lines 107-128 plus the session start at
lines 601-603), with session_start_tick = t. -/
def bootState (t : Nat) : DeviceState :=
  { brightness := 100
    start_hz := 12
    end_hz := 8
    inhale_time := 40
    exhale_time := 40
    hold_in_end := 40
    hold_out_end := 40
    session_minutes := 10
    session_start_tick := t
    session_active := true
    session_ended := false
    override_active := false
    override_duty := 0 }

/-- uint32 wrap-around subtraction a - b as performed by C on 32-bit
unsigned operands. -/
def u32_sub (a b : Nat) : Nat :=
  (a % 4294967296 + 4294967296 - b % 4294967296) % 4294967296

/-- Model of the ESP_GATTS_WRITE_EVT branch of gatts_profile_event_handler
(main.c lines 236-340).  Input: the shared state, the current tick
(xTaskGetTickCount()), and the write payload as a list of byte values
(each 0-255 on the wire).  Output: the updated state and the list of
logical duty percentages passed to pwm1_setduty, in order.  The GATT
response (sent unconditionally before parsing) and the log lines carry
no state and are omitted. -/
def handle_write (s : DeviceState) (now : Nat) (payload : List Nat) :
    DeviceState × List Nat :=
  match payload with
  | [] => (s, [])
  | [raw] =>
      let d := raw * 100 / 255
      ({ s with override_duty := d, override_active := true,
                session_active := false }, [d])
  | cmd :: rest =>
      if cmd = 0xA1 then
        match rest with
        | b1 :: b2 :: _ =>
            ({ s with start_hz := min 50 (max 1 b1),
                      end_hz := min 50 (max 1 b2),
                      override_active := false,
                      session_start_tick := now,
                      session_active := true,
                      session_ended := false }, [])
        | _ => (s, [])
      else if cmd = 0xA2 then
        match rest with
        | b1 :: _ => ({ s with brightness := min b1 100 }, [])
        | _ => (s, [])
      else if cmd = 0xA3 then
        match rest with
        | b1 :: b2 :: b3 :: b4 :: _ =>
            ({ s with inhale_time := b1, hold_in_end := b2,
                      exhale_time := b3, hold_out_end := b4,
                      override_active := false,
                      session_start_tick := now,
                      session_active := true,
                      session_ended := false }, [])
        | _ => (s, [])
      else if cmd = 0xA4 then
        match rest with
        | b1 :: _ =>
            ({ s with session_minutes := min 60 (max 1 b1),
                      override_active := false,
                      session_start_tick := now,
                      session_active := true,
                      session_ended := false }, [])
        | _ => (s, [])
      else if cmd = 0xA5 then
        match rest with
        | b1 :: _ =>
            let d := min b1 100
            ({ s with override_duty := d, override_active := true,
                      session_active := false }, [d])
        | _ => (s, [])
      else if cmd = 0xA6 then
        ({ s with override_active := false,
                  session_start_tick := now,
                  session_active := true,
                  session_ended := false }, [])
      else if cmd = 0xA7 then
        ({ s with session_ended := true }, [])
      else (s, [])

/-- PWM_MIN_VISIBLE of main.c line 161. -/
def PWM_MIN_VISIBLE : Nat := 400

/-- PWM_MAX of main.c line 162. -/
def PWM_MAX : Nat := 1024

/-- The raw 10-bit value that pwm1_setduty (main.c lines 164-173) hands
to the LEDC driver for a logical duty percentage. -/
def pwm1_raw (duty : Nat) : Nat :=
  if duty = 0 then 0
  else PWM_MIN_VISIBLE + (PWM_MAX - PWM_MIN_VISIBLE) * duty / 100

/-- The duty-to-raw map exactly as the specification words it
(spec section 6, hardware boundary): percent 0 maps to raw 0 and
percent in [1,100] maps to 400 + (1024 - 400) * percent / 100 in
integer arithmetic.  Stated separately from pwm1_raw so the two can be
compared. -/
def pwm_raw_spec (percent : Nat) : Nat :=
  if percent = 0 then 0 else 400 + (1024 - 400) * percent / 100

/-- C truncating cast of a nonnegative float value to an unsigned
integer (truncation toward zero), on the exact-rational model. -/
def qtruncNat (q : ℚ) : Nat := (⌊q⌋).toNat

/- portTICK_PERIOD_MS is a FreeRTOS configuration constant, not part
of main.c; every definition below takes it as a parameter ptms. -/

/-- The phase_durations array of main.c lines 437-442: the tick
durations of Inhale, HoldIn, Exhale, HoldOut, each computed as
(tenths-of-a-second value) * 100 / portTICK_PERIOD_MS. -/
def phase_durations (ptms inhale current_hold_in exhale current_hold_out : Nat) :
    Fin 4 → Nat :=
  ![inhale * 100 / ptms, current_hold_in * 100 / ptms,
    exhale * 100 / ptms, current_hold_out * 100 / ptms]

/-- The phase-advance while loop of main.c lines 445-452.  The C guard
is phase_checks < 4 && (d[phase] == 0 || elapsed >= d[phase]); here
fuel = 4 - phase_checks (so the initial call passes fuel = 4 and
checks = 0), p is breath_phase, ps is phase_start, e is breath_elapsed
and k is phase_checks.  Returns the settled
(breath_phase, phase_start, breath_elapsed, phase_checks). -/
def advanceLoop (d : Fin 4 → Nat) (now : Nat) :
    Nat → Fin 4 → Nat → Nat → Nat → Fin 4 × Nat × Nat × Nat
  | 0, p, ps, e, k => (p, ps, e, k)
  | fuel + 1, p, ps, e, k =>
      if d p = 0 ∨ d p ≤ e then advanceLoop d now fuel (p + 1) now 0 (k + 1)
      else (p, ps, e, k)

/-- The bp computation of main.c lines 454-455 under IEEE semantics on
the exact-rational model:
float bp = (float)breath_elapsed / (float)phase_durations[breath_phase];
if (bp > 1.0f) bp = 1.0f;
A zero duration with zero elapsed gives 0.0f/0.0f = NaN (modelled as
none; the comparison NaN > 1.0f is false, so the clamp leaves NaN in
place), a zero duration with positive elapsed gives +infinity, which
the clamp replaces by 1.0f, and a nonzero duration gives the quotient
clamped from above at 1. -/
def bpClamped (breath_elapsed d : Nat) : Option ℚ :=
  if d = 0 then
    if breath_elapsed = 0 then none else some 1
  else some (min ((breath_elapsed : ℚ) / (d : ℚ)) 1)

/-- The breath_brightness switch of main.c lines 457-462 (NaN
propagates through the arithmetic of cases 0 and 2). -/
def breathBrightness (phase : Fin 4) (bp : Option ℚ) : Option ℚ :=
  if phase.val = 0 then bp.map (fun q => q * 100)
  else if phase.val = 1 then some 100
  else if phase.val = 2 then bp.map (fun q => (1 - q) * 100)
  else some 0

/-- The phase-advance loop as led_task invokes it (main.c line 447):
fuel 4 and phase_checks 0. -/
def settle (d : Fin 4 → Nat) (now : Nat) (p : Fin 4) (ps e : Nat) :
    Fin 4 × Nat × Nat × Nat :=
  advanceLoop d now 4 p ps e 0

/-- The loop-local state of led_task that survives iterations
(main.c lines 377-378): breath_phase and phase_start. -/
structure BreathState where
  breath_phase : Fin 4
  phase_start : Nat
deriving DecidableEq

/-- The clamped session progress of main.c lines 398-401:
elapsed_ticks / session_duration_ticks capped at 1.  When
session_duration_ticks is 0 the session-completion check (duration <=
elapsed) fires before progress is ever consumed, so the value produced
here in that dead case is irrelevant to every observable action. -/
def sessionProgress (ptms : Nat) (s : DeviceState) (now : Nat) : ℚ :=
  min (((u32_sub now s.session_start_tick : Nat) : ℚ) /
       ((s.session_minutes * 60 * 1000 / ptms : Nat) : ℚ)) 1

/-- The four phase durations as led_task computes them each iteration
(main.c lines 433-442), with current_hold_in and current_hold_out the
uint8_t casts of hold_in_end * progress and hold_out_end * progress. -/
def ledDurations (ptms : Nat) (s : DeviceState) (now : Nat) : Fin 4 → Nat :=
  phase_durations ptms s.inhale_time
    (qtruncNat ((s.hold_in_end : ℚ) * sessionProgress ptms s now))
    s.exhale_time
    (qtruncNat ((s.hold_out_end : ℚ) * sessionProgress ptms s now))

/-- One observable action of a led_task iteration: a pwm1_setduty call
with its logical percent argument (none models the undefined
float-to-uint8_t cast of a NaN duty), or a vTaskDelay with its tick
argument. -/
inductive LedAction where
  | setDuty : Option Nat → LedAction
  | delay : Nat → LedAction
deriving DecidableEq

/-- One iteration of the while(1) body of led_task (main.c lines
382-478), as a function of the shared state s, the loop-local breathing
state b, the current tick now, and portTICK_PERIOD_MS = ptms.  Returns
the updated shared state, the updated breathing state, and the actions
performed.  The 30-second progress log (lines 412-425) only logs and is
omitted. -/
def ledSettle (ptms : Nat) (s : DeviceState) (b : BreathState) (now : Nat) :
    Fin 4 × Nat × Nat × Nat :=
  settle (ledDurations ptms s now) now b.breath_phase b.phase_start
    (u32_sub now b.phase_start)

/-- One iteration of the while(1) body of led_task (main.c lines
382-478), as a function of the shared state s, the loop-local breathing
state b, the current tick now, and portTICK_PERIOD_MS = ptms.  Returns
the updated shared state, the updated breathing state, and the list of
actions performed.  The 30-second progress log (lines 412-425) only
logs and is omitted; the progress value that the C code computes two
lines before the completion check is pure and is recomputed here (as
sessionProgress) in the only branch that consumes it. -/
def ledStep (ptms : Nat) (s : DeviceState) (b : BreathState) (now : Nat) :
    DeviceState × BreathState × List LedAction :=
  if s.override_active = true then
    (s, b, [LedAction.delay (100 / ptms)])
  else if s.session_active = false then
    (s, b, [LedAction.delay (100 / ptms)])
  else
    let session_duration_ticks := s.session_minutes * 60 * 1000 / ptms
    let elapsed_ticks := u32_sub now s.session_start_tick
    if session_duration_ticks ≤ elapsed_ticks then
      ({ s with session_active := false, session_ended := true }, b,
       [LedAction.setDuty (some 0)])
    else
      let progress := sessionProgress ptms s now
      let current_hz : ℚ :=
        max 1 ((s.start_hz : ℚ) + ((s.end_hz : ℚ) - (s.start_hz : ℚ)) * progress)
      let strobe_delay_ms := qtruncNat (500 / current_hz)
      let d := ledDurations ptms s now
      let r := ledSettle ptms s b now
      let bp := bpClamped r.2.2.1 (d r.1)
      let bb := breathBrightness r.1 bp
      let duty := bb.map (fun q => qtruncNat (q * (s.brightness : ℚ) / 100))
      let strobe_on_ms := strobe_delay_ms * 3 / 2
      let strobe_off_ms := strobe_delay_ms / 2
      (s, { breath_phase := r.1, phase_start := r.2.1 },
       [LedAction.setDuty duty, LedAction.delay (strobe_on_ms / ptms),
        LedAction.setDuty (some 0), LedAction.delay (strobe_off_ms / ptms)])

/-- SLEEP_HALL_WAIT_TIME of main.c line 87. -/
def SLEEP_HALL_WAIT_TIME : Nat := 5

/-- One due 1-second poll of check_sleep_condition (main.c lines
497-522), given the session_ended flag, the hall reading (true when
gpio_get_level(HALL_PIN) == 1, i.e. arms closed) and the static
arms_closed_duration counter.  Returns the new counter and whether
enter_deep_sleep was reached.  The early return when less than 1000 ms
have passed since the previous poll is abstracted: each modelled step
is one due poll. -/
def check_sleep_poll (ended hallClosed : Bool) (arms : Nat) : Nat × Bool :=
  if ended = true then (arms, true)
  else if hallClosed = true then
    (arms + 1, decide (SLEEP_HALL_WAIT_TIME ≤ arms + 1))
  else (0, false)

/-- A run of consecutive due polls of check_sleep_condition over a list
of hall readings, with a constant session_ended flag.  Stops at the
first poll that enters deep sleep (enter_deep_sleep does not return).
Returns the final arms_closed_duration counter and whether the run
entered deep sleep. -/
def sleep_run (ended : Bool) : List Bool → Nat → Nat × Bool
  | [], arms => (arms, false)
  | r :: rs, arms =>
      let res := check_sleep_poll ended r arms
      if res.2 = true then (res.1, true) else sleep_run ended rs res.1

/-! Helper lemmas shared by several claims. -/

theorem u32_sub_eq_sub (a b : Nat) (hb : b ≤ a) (ha : a < 4294967296) :
    u32_sub a b = a - b := by
  unfold u32_sub
  have hb' : b < 4294967296 := lt_of_le_of_lt hb ha
  rw [Nat.mod_eq_of_lt ha, Nat.mod_eq_of_lt hb']
  have : a + 4294967296 - b = (a - b) + 4294967296 := by omega
  rw [this, Nat.add_mod_right, Nat.mod_eq_of_lt (by omega)]

theorem advanceLoop_succ (d : Fin 4 → Nat) (now fuel : Nat) (p : Fin 4)
    (ps e k : Nat) :
    advanceLoop d now (fuel + 1) p ps e k =
      if d p = 0 ∨ d p ≤ e then advanceLoop d now fuel (p + 1) now 0 (k + 1)
      else (p, ps, e, k) := rfl

theorem fin4_add_four : ∀ p : Fin 4, p + 1 + 1 + 1 + 1 = p := by decide

/-- Exhaustive case analysis of the settled phase-advance loop: it exits
after 0, 1, 2, 3 or 4 advances, with the recorded guard facts. -/
theorem settle_cases (d : Fin 4 → Nat) (now : Nat) (p : Fin 4) (ps e : Nat) :
    (settle d now p ps e = (p, ps, e, 0) ∧ d p ≠ 0 ∧ e < d p) ∨
    (settle d now p ps e = (p + 1, now, 0, 1) ∧ (d p = 0 ∨ d p ≤ e) ∧
      d (p + 1) ≠ 0) ∨
    (settle d now p ps e = (p + 1 + 1, now, 0, 2) ∧ (d p = 0 ∨ d p ≤ e) ∧
      d (p + 1) = 0 ∧ d (p + 1 + 1) ≠ 0) ∨
    (settle d now p ps e = (p + 1 + 1 + 1, now, 0, 3) ∧ (d p = 0 ∨ d p ≤ e) ∧
      d (p + 1) = 0 ∧ d (p + 1 + 1) = 0 ∧ d (p + 1 + 1 + 1) ≠ 0) ∨
    (settle d now p ps e = (p, now, 0, 4) ∧ (d p = 0 ∨ d p ≤ e) ∧
      d (p + 1) = 0 ∧ d (p + 1 + 1) = 0 ∧ d (p + 1 + 1 + 1) = 0) := by
  unfold settle
  by_cases h0 : d p = 0 ∨ d p ≤ e
  case neg =>
    left
    refine ⟨by rw [advanceLoop_succ, if_neg h0], ?_, ?_⟩ <;> omega
  rw [advanceLoop_succ, if_pos h0]
  by_cases h1 : d (p + 1) = 0
  case neg =>
    right; left
    have hng : ¬(d (p + 1) = 0 ∨ d (p + 1) ≤ 0) := by omega
    exact ⟨by rw [advanceLoop_succ, if_neg hng], h0, h1⟩
  rw [advanceLoop_succ, if_pos (Or.inl h1)]
  by_cases h2 : d (p + 1 + 1) = 0
  case neg =>
    right; right; left
    have hng : ¬(d (p + 1 + 1) = 0 ∨ d (p + 1 + 1) ≤ 0) := by omega
    exact ⟨by rw [advanceLoop_succ, if_neg hng], h0, h1, h2⟩
  rw [advanceLoop_succ, if_pos (Or.inl h2)]
  by_cases h3 : d (p + 1 + 1 + 1) = 0
  case neg =>
    right; right; right; left
    have hng : ¬(d (p + 1 + 1 + 1) = 0 ∨ d (p + 1 + 1 + 1) ≤ 0) := by omega
    exact ⟨by rw [advanceLoop_succ, if_neg hng], h0, h1, h2, h3⟩
  rw [advanceLoop_succ, if_pos (Or.inl h3)]
  right; right; right; right
  refine ⟨?_, h0, h1, h2, h3⟩
  show (p + 1 + 1 + 1 + 1, now, 0, 4) = (p, now, 0, 4)
  rw [fin4_add_four]

/-- C5: in every modulation-loop evaluation the breathing phase-advance
loop performs at most 4 advances; it advances only in the cyclic order
Inhale, HoldIn, Exhale, HoldOut and back to Inhale (final phase index =
initial index + number of advances, mod 4); it performs no advance
exactly when the active phase has nonzero duration and its elapsed time
is below that duration; each advance resets phase_start to now and the
phase-elapsed time to 0; and whenever it stops short of 4 advances the
settled phase has nonzero duration with elapsed below it (so
zero-duration phases are skipped within the same evaluation). -/
theorem c5_phase_advance (d : Fin 4 → Nat) (now : Nat) (p : Fin 4) (ps e : Nat) :
    (settle d now p ps e).2.2.2 ≤ 4 ∧
    ((settle d now p ps e).1).val = (p.val + (settle d now p ps e).2.2.2) % 4 ∧
    ((settle d now p ps e).2.2.2 = 0 ↔ d p ≠ 0 ∧ e < d p) ∧
    ((settle d now p ps e).2.2.2 = 0 → settle d now p ps e = (p, ps, e, 0)) ∧
    (0 < (settle d now p ps e).2.2.2 →
      (settle d now p ps e).2.1 = now ∧ (settle d now p ps e).2.2.1 = 0) ∧
    ((settle d now p ps e).2.2.2 < 4 →
      d (settle d now p ps e).1 ≠ 0 ∧
      (settle d now p ps e).2.2.1 < d (settle d now p ps e).1) := by
  have hp := p.isLt
  rcases settle_cases d now p ps e with
    ⟨h, h1, h2⟩ | ⟨h, h1, h2⟩ | ⟨h, h1, h2, h3⟩ | ⟨h, h1, h2, h3, h4⟩ |
    ⟨h, h1, h2, h3, h4⟩ <;> rw [h] <;> dsimp only
  · exact ⟨by norm_num, by omega, ⟨fun _ => ⟨h1, h2⟩, fun _ => rfl⟩,
      fun _ => rfl, fun hc => absurd hc (by norm_num),
      fun _ => ⟨h1, h2⟩⟩
  · refine ⟨by norm_num, ?_, ?_, fun hc => absurd hc (by norm_num),
      fun _ => ⟨rfl, rfl⟩, fun _ => ⟨h2, Nat.pos_of_ne_zero h2⟩⟩
    · simp only [Fin.val_add]; omega
    · constructor <;> intro hc <;> omega
  · refine ⟨by norm_num, ?_, ?_, fun hc => absurd hc (by norm_num),
      fun _ => ⟨rfl, rfl⟩, fun _ => ⟨h3, Nat.pos_of_ne_zero h3⟩⟩
    · simp only [Fin.val_add]; omega
    · constructor <;> intro hc <;> omega
  · refine ⟨by norm_num, ?_, ?_, fun hc => absurd hc (by norm_num),
      fun _ => ⟨rfl, rfl⟩, fun _ => ⟨h4, Nat.pos_of_ne_zero h4⟩⟩
    · simp only [Fin.val_add]; omega
    · constructor <;> intro hc <;> omega
  · refine ⟨by norm_num, by omega, ?_, fun hc => absurd hc (by norm_num),
      fun _ => ⟨rfl, rfl⟩, fun hc => absurd hc (by norm_num)⟩
    constructor <;> intro hc <;> omega

/-- Witness for c5_phase_advance at durations (0, 0, 400, 0), initial
phase Inhale, elapsed 5: the loop advances twice (two zero-duration
skips counted from the first guard pass) and resets phase_start to now
and elapsed to 0. -/
theorem c5_phase_advance_wit :
    (settle ![0, 0, 400, 0] 9 0 3 5).2.1 = 9 ∧
    (settle ![0, 0, 400, 0] 9 0 3 5).2.2.1 = 0 :=
  (c5_phase_advance ![0, 0, 400, 0] 9 0 3 5).2.2.2.2.1 (by decide)

/-- C3 (amended): after the phase-advance step settles, whenever the
settled phase's duration is nonzero the brightness fraction bp equals
clamp(elapsed / duration, 0, 1); but whenever the settled phase's
duration is zero (which happens exactly when all four durations are
zero) the settled elapsed time is 0 and bp is the IEEE NaN produced by
0.0f/0.0f — the code has no divide-by-zero guard and the upper clamp
does not fire on NaN, so bp is not 1. -/
theorem c3_bp_clamp_amended (d : Fin 4 → Nat) (now : Nat) (p : Fin 4)
    (ps e : Nat) :
    (d (settle d now p ps e).1 ≠ 0 →
      bpClamped (settle d now p ps e).2.2.1 (d (settle d now p ps e).1) =
        some (max 0 (min (((settle d now p ps e).2.2.1 : ℚ) /
          ((d (settle d now p ps e).1 : Nat) : ℚ)) 1))) ∧
    (d (settle d now p ps e).1 = 0 →
      (settle d now p ps e).2.2.1 = 0 ∧
      bpClamped (settle d now p ps e).2.2.1 (d (settle d now p ps e).1) =
        none) := by
  constructor
  · intro hd
    unfold bpClamped
    rw [if_neg hd]
    have h0 : (0 : ℚ) ≤ min (((settle d now p ps e).2.2.1 : ℚ) /
        ((d (settle d now p ps e).1 : Nat) : ℚ)) 1 := by
      apply le_min
      · positivity
      · norm_num
    rw [max_eq_right h0]
  · intro hd
    have he : (settle d now p ps e).2.2.1 = 0 := by
      rcases settle_cases d now p ps e with
        ⟨h, h1, h2⟩ | ⟨h, h1, h2⟩ | ⟨h, h1, h2, h3⟩ | ⟨h, h1, h2, h3, h4⟩ |
        ⟨h, h1, h2, h3, h4⟩ <;> rw [h] at hd ⊢ <;> dsimp only at hd ⊢ <;>
        omega
    refine ⟨he, ?_⟩
    rw [he, hd]
    rfl

/-- Counterexample to C3 as stated: with all four phase durations zero
(the durations the command 0xA3 00 00 00 00 produces, since the 0xA3
bytes are not clamped: phase_durations 10 0 0 0 0), the phase-advance
loop settles with a zero-duration phase and bp is NaN (0.0f/0.0f), not
1 as the claim states. -/
theorem c3_bp_zero_duration_cex :
    phase_durations 10 0 0 0 0
        ((settle (phase_durations 10 0 0 0 0) 100 0 7 7).1) = 0 ∧
    bpClamped ((settle (phase_durations 10 0 0 0 0) 100 0 7 7).2.2.1)
        (phase_durations 10 0 0 0 0
          ((settle (phase_durations 10 0 0 0 0) 100 0 7 7).1)) ≠ some 1 := by
  constructor
  · decide
  · decide

/-- Witness for c3_bp_clamp_amended at durations (0, 0, 400, 0), phase
Inhale, elapsed 5: the loop settles on Exhale with elapsed 0 and bp is
the clamped quotient 0. -/
theorem c3_bp_clamp_amended_wit :
    bpClamped (settle ![0, 0, 400, 0] 9 0 3 5).2.2.1
      ((![0, 0, 400, 0] : Fin 4 → Nat) (settle ![0, 0, 400, 0] 9 0 3 5).1) =
      some 0 := by
  have h := (c3_bp_clamp_amended ![0, 0, 400, 0] 9 0 3 5).1 (by decide)
  rw [h]
  have hs : settle ![0, 0, 400, 0] 9 0 3 5 = (2, 9, 0, 2) := by decide
  rw [hs]
  norm_num

/-- C7: every payload of length at least 3 whose first byte is 0xA1
stores bytes 1 and 2 as start_hz and end_hz clamped to [1, 50], clears
the override, sets the session active with ended cleared and resets
start_time to now; in particular 0xA1 5 60 stores end_hz = 50 and
0xA1 0 10 stores start_hz = 1. -/
theorem c7_a1_clamp :
    (∀ (s : DeviceState) (now b1 b2 : Nat) (rest : List Nat),
      handle_write s now (0xA1 :: b1 :: b2 :: rest) =
        ({ s with start_hz := min 50 (max 1 b1),
                  end_hz := min 50 (max 1 b2),
                  override_active := false,
                  session_start_tick := now,
                  session_active := true,
                  session_ended := false }, [])) ∧
    (∀ (s : DeviceState) (now : Nat),
      (handle_write s now [0xA1, 5, 60]).1.end_hz = 50 ∧
      (handle_write s now [0xA1, 0, 10]).1.start_hz = 1) := by
  constructor
  · intro s now b1 b2 rest
    rfl
  · intro s now
    exact ⟨rfl, rfl⟩

/-- C4 (amended): a single-byte payload b sets the override duty to the
integer truncation b * 100 / 255 (not the rounding the claim states),
sets the override active, clears the session-active flag, and applies
that duty to the actuator immediately; the endpoints behave as the
claim states: 0x00 yields duty 0 and 0xFF yields duty 100. -/
theorem c4_legacy_duty_amended (s : DeviceState) (now b : Nat)
    (hb : b ≤ 255) :
    handle_write s now [b] =
      ({ s with override_duty := b * 100 / 255, override_active := true,
                session_active := false }, [b * 100 / 255]) ∧
    (handle_write s now [0]).1.override_duty = 0 ∧
    (handle_write s now [255]).1.override_duty = 100 := by
  exact ⟨rfl, rfl, rfl⟩

/-- Counterexample to C4 as stated: the code computes the duty with
truncating integer division, not rounding; at payload byte 0x02 the
code stores duty 0 while round(2 * 100 / 255) = round(0.784...) = 1. -/
theorem c4_legacy_round_cex :
    (handle_write (bootState 0) 0 [2]).1.override_duty = 0 ∧
    round ((2 * 100 : ℚ) / 255) = 1 := by
  constructor
  · decide
  · rw [round_eq]
    norm_num

/-- Witness for c4_legacy_duty_amended at payload byte 2 from the boot
state. -/
theorem c4_legacy_duty_amended_wit :
    handle_write (bootState 0) 0 [2] =
      ({ bootState 0 with override_duty := 2 * 100 / 255,
                          override_active := true,
                          session_active := false },
       [2 * 100 / 255]) :=
  (c4_legacy_duty_amended (bootState 0) 0 2 (by norm_num)).1

/-- C1 (amended): the 0xA6/0xA7 dispatch applies to payloads of length
at least 2 (not to length-1 payloads, which the legacy single-byte duty
path consumes first): for every payload of length >= 2, first byte 0xA6
performs resume/restart (clears override, sets session active, clears
ended, resets start_time to now, no actuator write) and first byte 0xA7
sets SessionLifecycle.ended = true without changing the actuator or any
other field. -/
theorem c1_a6_a7_dispatch_amended (s : DeviceState) (now : Nat)
    (payload : List Nat) (hlen : 2 ≤ payload.length) :
    (payload.head? = some 0xA6 →
      handle_write s now payload =
        ({ s with override_active := false,
                  session_start_tick := now,
                  session_active := true,
                  session_ended := false }, [])) ∧
    (payload.head? = some 0xA7 →
      handle_write s now payload = ({ s with session_ended := true }, [])) := by
  match payload with
  | [] => simp at hlen
  | [x] => simp at hlen
  | a :: b :: rest =>
      constructor <;> intro h <;> simp only [List.head?] at h <;>
        injection h with h <;> subst h <;> rfl

/-- Counterexample to C1 as stated: the single-byte payloads 0xA6 and
0xA7 are consumed by the legacy duty path (main.c line 252 checks the
length first), so a length-1 0xA6 write enters override mode with the
session deactivated instead of resuming, and a length-1 0xA7 write
leaves ended clear and drives the actuator to 65 percent. -/
theorem c1_len1_dispatch_cex :
    (handle_write (bootState 0) 5 [0xA6]).1.session_active = false ∧
    (handle_write (bootState 0) 5 [0xA6]).1.override_active = true ∧
    (handle_write (bootState 0) 5 [0xA7]).1.session_ended = false ∧
    (handle_write (bootState 0) 5 [0xA7]).2 = [65] := by
  refine ⟨rfl, rfl, rfl, rfl⟩

/-- Witness for c1_a6_a7_dispatch_amended: a 0xA6 write of length 2,
received while a static override is active, resumes the session. -/
theorem c1_a6_a7_dispatch_amended_wit :
    handle_write { bootState 0 with override_active := true,
                                    session_active := false } 42 [0xA6, 9] =
      ({ { bootState 0 with override_active := true,
                            session_active := false } with
                override_active := false,
                session_start_tick := 42,
                session_active := true,
                session_ended := false }, []) :=
  (c1_a6_a7_dispatch_amended
    { bootState 0 with override_active := true, session_active := false }
    42 [0xA6, 9] (by norm_num)).1 rfl

/-- C2 (amended): every command-processor transition that brings the
session-active flag from cleared to set also clears ended, and a
modulation-loop step never creates the combination active = 1 and
ended = 1; but the invariant as stated fails: the 0xA7 command sets
ended = 1 without clearing active, so a 0xA7 write of length >= 2
arriving during an active session is the one way a new
active = 1 and ended = 1 state is produced. -/
theorem c2_active_ended_invariant_amended :
    (∀ (s : DeviceState) (now : Nat) (payload : List Nat),
      (handle_write s now payload).1.session_active = true ∧
      (handle_write s now payload).1.session_ended = true →
      (s.session_active = true ∧ s.session_ended = true) ∨
      (2 ≤ payload.length ∧ payload.head? = some 0xA7 ∧
        s.session_active = true)) ∧
    (∀ (s : DeviceState) (now : Nat) (payload : List Nat),
      (handle_write s now payload).1.session_active = true →
      s.session_active = false →
      (handle_write s now payload).1.session_ended = false) ∧
    (∀ (ptms : Nat) (s : DeviceState) (b : BreathState) (now : Nat),
      ¬(s.session_active = true ∧ s.session_ended = true) →
      ¬((ledStep ptms s b now).1.session_active = true ∧
        (ledStep ptms s b now).1.session_ended = true)) := by
  refine ⟨?_, ?_, ?_⟩
  · intro s now payload
    match payload with
    | [] => intro h; exact Or.inl h
    | [x] => intro h; simp [handle_write] at h
    | c :: b2 :: rest =>
        simp only [handle_write]
        split_ifs with h1 h2 h3 h4 h5 h6 h7 <;> intro h
        · cases rest with
          | nil => exact Or.inl h
          | cons x xs => simp at h
        · exact Or.inl h
        · cases rest with
          | nil => exact Or.inl h
          | cons x xs =>
              cases xs with
              | nil => exact Or.inl h
              | cons y ys =>
                  cases ys with
                  | nil => exact Or.inl h
                  | cons z zs => simp at h
        · simp at h
        · simp at h
        · simp at h
        · refine Or.inr ⟨by simp, by simp [List.head?, h7], ?_⟩
          simpa using h.1
        · exact Or.inl h
  · intro s now payload hact hold
    match payload with
    | [] => simp [handle_write, hold] at hact
    | [x] => simp [handle_write] at hact
    | c :: b2 :: rest =>
        simp only [handle_write] at hact ⊢
        split_ifs at hact ⊢ with h1 h2 h3 h4 h5 h6 h7 <;>
        first
        | (simp; done)
        | (simp_all; done)
        | (cases rest with
           | nil => simp_all
           | cons x xs =>
               first
               | (simp; done)
               | (cases xs with
                  | nil => simp_all
                  | cons y ys =>
                      cases ys with
                      | nil => simp_all
                      | cons z zs => simp))
  · intro ptms s b now hno
    simp only [ledStep]
    split_ifs with h1 h2 h3 <;> simp_all

/-- Counterexample to C2 as stated: from the boot state (session
active, ended clear — the state app_main establishes), one 0xA7 write
of length 2 produces a state with session_active = 1 and
session_ended = 1 simultaneously: the 0xA7 case sets ended without
clearing active. -/
theorem c2_active_ended_cex :
    (handle_write (bootState 0) 0 [0xA7, 0]).1.session_active = true ∧
    (handle_write (bootState 0) 0 [0xA7, 0]).1.session_ended = true := by
  exact ⟨rfl, rfl⟩

/-- Witness for c2_active_ended_invariant_amended: applying its first
conjunct to the boot state and the write 0xA7 0x00 identifies the 0xA7
path as the producer of the active-and-ended state. -/
theorem c2_active_ended_invariant_amended_wit :
    ((bootState 0).session_active = true ∧
      (bootState 0).session_ended = true) ∨
    (2 ≤ [(0xA7 : Nat), 0].length ∧
      ([(0xA7 : Nat), 0] : List Nat).head? = some 0xA7 ∧
      (bootState 0).session_active = true) :=
  c2_active_ended_invariant_amended.1 (bootState 0) 0 [0xA7, 0] ⟨rfl, rfl⟩

/-- C6: with the override inactive and the session active, as soon as
the elapsed tick count reaches the configured session duration
(ties resolve to complete, since the code compares with >=), the
modulation loop drives the actuator to duty 0, clears active and sets
ended — and it does so exactly once: every subsequent iteration from
the resulting state, at any time and any breathing state, performs no
actuator write and no state change (it only sleeps 100 ms). -/
theorem c6_session_complete_once (ptms : Nat) (s : DeviceState)
    (b : BreathState) (now : Nat)
    (hov : s.override_active = false) (hact : s.session_active = true)
    (hle : s.session_start_tick ≤ now) (hnow : now < 4294967296)
    (hdone : s.session_minutes * 60 * 1000 / ptms ≤
      now - s.session_start_tick) :
    ledStep ptms s b now =
      ({ s with session_active := false, session_ended := true }, b,
       [LedAction.setDuty (some 0)]) ∧
    ∀ (b2 : BreathState) (now2 : Nat),
      ledStep ptms { s with session_active := false, session_ended := true }
          b2 now2 =
        ({ s with session_active := false, session_ended := true }, b2,
         [LedAction.delay (100 / ptms)]) := by
  constructor
  · rw [ledStep]
    rw [if_neg (by rw [hov]; simp), if_neg (by rw [hact]; simp)]
    rw [u32_sub_eq_sub _ _ hle hnow]
    rw [if_pos hdone]
  · intro b2 now2
    rw [ledStep]
    rw [if_neg (by simp [hov]), if_pos (by simp)]

/-- Witness for c6_session_complete_once: the boot-default session
(10 minutes, tick period 10 ms) completes at tick 60000 and the
following iteration is a no-op. -/
theorem c6_session_complete_once_wit :
    ledStep 10 (bootState 0) ⟨0, 0⟩ 60000 =
      ({ bootState 0 with session_active := false, session_ended := true },
       (⟨0, 0⟩ : BreathState), [LedAction.setDuty (some 0)]) ∧
    ledStep 10 { bootState 0 with session_active := false,
                                  session_ended := true } ⟨1, 7⟩ 60100 =
      ({ bootState 0 with session_active := false, session_ended := true },
       (⟨1, 7⟩ : BreathState), [LedAction.delay (100 / 10)]) := by
  have h := c6_session_complete_once 10 (bootState 0) ⟨0, 0⟩ 60000 rfl rfl
    (by decide) (by decide) (by decide)
  exact ⟨h.1, h.2 ⟨1, 7⟩ 60100⟩

/-- C8: for every logical percent in [0, 100] the remap of pwm1_setduty
agrees exactly with the specified dead-zone map: percent 0 gives raw 0
and percent in [1, 100] gives 400 + (1024 - 400) * percent / 100. -/
theorem c8_duty_remap (p : Nat) (hp : p ≤ 100) :
    pwm1_raw p = pwm_raw_spec p ∧
    (p = 0 → pwm1_raw p = 0) ∧
    (1 ≤ p → pwm1_raw p = 400 + (1024 - 400) * p / 100) := by
  refine ⟨rfl, ?_, ?_⟩
  · intro h
    rw [h]
    rfl
  · intro h
    unfold pwm1_raw PWM_MIN_VISIBLE PWM_MAX
    rw [if_neg (by omega)]

/-- Witness for c8_duty_remap at percent 100: full duty maps to the
raw ceiling 1024. -/
theorem c8_duty_remap_wit :
    pwm1_raw 100 = pwm_raw_spec 100 ∧ pwm1_raw 100 = 1024 := by
  have h := c8_duty_remap 100 (by norm_num)
  refine ⟨h.1, ?_⟩
  rw [h.2.2 (by norm_num)]

/-- C9: for runs of due 1-second polls of the sleep controller with the
session not ended: five consecutive closed readings starting from a
reset counter reach the debounce threshold and enter retention; any
open reading resets the closed-duration counter to 0 and does not
sleep; and four closed readings followed by one open reading never
trigger retention through the sensor path. -/
theorem c9_hall_debounce :
    (sleep_run false (List.replicate SLEEP_HALL_WAIT_TIME true) 0).2 = true ∧
    (∀ arms : Nat, check_sleep_poll false false arms = (0, false)) ∧
    sleep_run false
      (List.replicate (SLEEP_HALL_WAIT_TIME - 1) true ++ [false]) 0 =
      (0, false) := by
  refine ⟨by decide, fun arms => rfl, by decide⟩

theorem qtruncNat_le (q : ℚ) (n : Nat) (h : q ≤ (n : ℚ)) : qtruncNat q ≤ n := by
  unfold qtruncNat
  have h1 : ⌊q⌋ ≤ (n : ℤ) := by
    calc ⌊q⌋ ≤ ⌊(n : ℚ)⌋ := Int.floor_mono h
    _ = (n : ℤ) := Int.floor_natCast n
  exact Int.toNat_le.mpr h1

/-- The duty computed from a settled phase of nonzero duration is at
most the configured brightness (and at most 100 when the brightness
is): the brightness fraction lies in [0, 100] in all four phases and
the final multiply-divide-truncate cannot exceed its brightness
factor. -/
theorem duty_bound (p : Fin 4) (e dv br : Nat) (hdv : dv ≠ 0)
    (hbr : br ≤ 100) :
    ∃ du, (breathBrightness p (bpClamped e dv)).map
        (fun q => qtruncNat (q * (br : ℚ) / 100)) = some du ∧
      du ≤ br ∧ du ≤ 100 := by
  have hbp : bpClamped e dv = some (min ((e : ℚ) / (dv : ℚ)) 1) := by
    unfold bpClamped
    rw [if_neg hdv]
  have hq0 : (0 : ℚ) ≤ min ((e : ℚ) / (dv : ℚ)) 1 :=
    le_min (by positivity) (by norm_num)
  have hq1 : min ((e : ℚ) / (dv : ℚ)) 1 ≤ 1 := min_le_right _ _
  have key : ∀ v : ℚ, 0 ≤ v → v ≤ 100 →
      qtruncNat (v * (br : ℚ) / 100) ≤ br ∧
      qtruncNat (v * (br : ℚ) / 100) ≤ 100 := by
    intro v h0v h1v
    have hvb : v * (br : ℚ) / 100 ≤ (br : ℚ) := by
      rw [div_le_iff (by norm_num)]
      calc v * (br : ℚ) ≤ 100 * (br : ℚ) :=
        mul_le_mul_of_nonneg_right h1v (by positivity)
      _ = (br : ℚ) * 100 := by ring
    have hle := qtruncNat_le _ br hvb
    exact ⟨hle, le_trans hle hbr⟩
  unfold breathBrightness
  rw [hbp]
  split_ifs with h0 h1 h2
  · exact ⟨_, rfl, key _ (by positivity)
      (by nlinarith [hq1, hq0])⟩
  · exact ⟨_, rfl, key 100 (by norm_num) (by norm_num)⟩
  · exact ⟨_, rfl, key _ (by nlinarith [hq1]) (by nlinarith [hq0])⟩
  · exact ⟨_, rfl, key 0 (by norm_num) (by norm_num)⟩

/-- C10: in every modulation-loop iteration that reaches the strobe
stage (override inactive, session active, not complete) and whose
settled breathing phase has nonzero duration, the duty written to the
actuator for the dark interval is at most the configured brightness,
and hence at most 100 while the brightness invariant holds. -/
theorem c10_duty_le_brightness (ptms : Nat) (s : DeviceState)
    (b : BreathState) (now : Nat)
    (hov : s.override_active = false) (hact : s.session_active = true)
    (hrun : ¬(s.session_minutes * 60 * 1000 / ptms ≤
      u32_sub now s.session_start_tick))
    (hdur : ledDurations ptms s now ((ledSettle ptms s b now).1) ≠ 0)
    (hbr : s.brightness ≤ 100) :
    ∃ du, ((ledStep ptms s b now).2.2).head? =
        some (LedAction.setDuty (some du)) ∧
      du ≤ s.brightness ∧ du ≤ 100 := by
  obtain ⟨du, hmap, hle1, hle2⟩ :=
    duty_bound (ledSettle ptms s b now).1 (ledSettle ptms s b now).2.2.1
      (ledDurations ptms s now ((ledSettle ptms s b now).1)) s.brightness
      hdur hbr
  refine ⟨du, ?_, hle1, hle2⟩
  rw [ledStep]
  rw [if_neg (by simp [hov]), if_neg (by simp [hact]), if_neg hrun]
  simp only [List.head?]
  rw [hmap]

/-- Witness for c10_duty_le_brightness: the first strobe iteration of
the boot-default session (tick 0) writes a dark-interval duty bounded
by the configured brightness. -/
theorem c10_duty_le_brightness_wit :
    ∃ du, ((ledStep 10 (bootState 0) ⟨0, 0⟩ 0).2.2).head? =
        some (LedAction.setDuty (some du)) ∧
      du ≤ (bootState 0).brightness ∧ du ≤ 100 := by
  have hz : u32_sub 0 0 = 0 := by decide
  have hd0 : ledDurations 10 (bootState 0) 0 0 = 400 := by
    unfold ledDurations phase_durations
    norm_num [bootState]
  have hsettle : ledSettle 10 (bootState 0) ⟨0, 0⟩ 0 = (0, 0, 0, 0) := by
    unfold ledSettle settle
    rw [hz]
    rw [advanceLoop_succ, if_neg (by rw [hd0]; norm_num)]
  apply c10_duty_le_brightness
  · rfl
  · rfl
  · decide
  · rw [hsettle]
    rw [hd0]
    norm_num
  · decide
